import Mathlib

/-!
Verification of the plotffi C++ wrapper (`examples/main.cpp`, which inlines
`plotffi.hpp`) against its natural-language specification.

The wrapper code is embedded shallowly:
* `PlotOptions` is the C ABI options struct (`plotffi.h`); its `u32` fields
  are `Nat` (no arithmetic is performed on them, so no overflow can occur)
  and its `double` fields are `ℚ` (only exact comparisons, min and max are
  performed on them, never rounding arithmetic).
* `ScatterOptions` with its builder setters and `toCOptions` is the C++
  builder struct.
* `scatterPng` is the exception-throwing wrapper.  The external C calls
  `plot_scatter_png` and `plot_last_error_message` are supplied through an
  explicit environment `FfiEnv`; the result records the outcome (normal
  return or thrown `PlotError` message) together with a flag telling whether
  `plot_scatter_png` was invoked.
* The core renderer is not part of this repository, so its Range Resolver is
  modelled from the specification (see `resolveRange`).
-/

namespace plotffi

/-- The C ABI `PlotOptions` struct from `plotffi.h`.  The C struct carries
no default values; all fields are set by the caller. -/
structure PlotOptions where
  width : Nat
  height : Nat
  marker_radius : Nat
  auto_range : Int
  x_min : ℚ
  x_max : ℚ
  y_min : ℚ
  y_max : ℚ
deriving DecidableEq

/-- The C++ builder-style `ScatterOptions` struct, with its in-class field
initializers as default values. -/
structure ScatterOptions where
  width : Nat := 800
  height : Nat := 600
  markerRadius : Nat := 5
  autoRange : Bool := true
  xMin : ℚ := 0
  xMax : ℚ := 1
  yMin : ℚ := 0
  yMax : ℚ := 1
deriving DecidableEq

/-- `ScatterOptions::setSize`. -/
def ScatterOptions.setSize (s : ScatterOptions) (w h : Nat) : ScatterOptions :=
  { s with width := w, height := h }

/-- `ScatterOptions::setMarkerRadius`. -/
def ScatterOptions.setMarkerRadius (s : ScatterOptions) (radius : Nat) : ScatterOptions :=
  { s with markerRadius := radius }

/-- `ScatterOptions::setAutoRange`. -/
def ScatterOptions.setAutoRange (s : ScatterOptions) (enabled : Bool) : ScatterOptions :=
  { s with autoRange := enabled }

/-- `ScatterOptions::setXRange`: sets the explicit x range and disables
auto-ranging. -/
def ScatterOptions.setXRange (s : ScatterOptions) (mn mx : ℚ) : ScatterOptions :=
  { s with xMin := mn, xMax := mx, autoRange := false }

/-- `ScatterOptions::setYRange`: sets the explicit y range and disables
auto-ranging. -/
def ScatterOptions.setYRange (s : ScatterOptions) (mn mx : ℚ) : ScatterOptions :=
  { s with yMin := mn, yMax := mx, autoRange := false }

/-- `ScatterOptions::toCOptions`: converts the C++ builder struct to the C
ABI struct, mapping the boolean `autoRange` to the integer `1` or `0`. -/
def ScatterOptions.toCOptions (s : ScatterOptions) : PlotOptions :=
  { width := s.width
    height := s.height
    marker_radius := s.markerRadius
    auto_range := if s.autoRange then 1 else 0
    x_min := s.xMin
    x_max := s.xMax
    y_min := s.yMin
    y_max := s.yMax }

/-- Observable outcome of a `scatterPng` call: either a normal return or a
thrown `PlotError` carrying its message. -/
inductive ScatterOutcome where
  | ok : ScatterOutcome
  | threw (msg : String) : ScatterOutcome
deriving DecidableEq

/-- The external C API as seen by the wrapper during one call:
`plotScatterPng` is the status returned by `plot_scatter_png` for given
arguments, and `plotLastErrorMessage` is what `plot_last_error_message`
returns afterwards (`none` models a null pointer). -/
structure FfiEnv where
  plotScatterPng : String → List ℚ → List ℚ → Nat → PlotOptions → Int
  plotLastErrorMessage : Option String

/-- `plotffi::scatterPng`: validates the input vectors, converts the
options, invokes `plot_scatter_png` and translates a nonzero status into a
thrown `PlotError`.  The second component of the result is `true` exactly
when `plot_scatter_png` was invoked. -/
def scatterPng (env : FfiEnv) (path : String) (xs ys : List ℚ)
    (options : ScatterOptions) : ScatterOutcome × Bool :=
  if xs.length ≠ ys.length then
    (ScatterOutcome.threw ("X and Y coordinate vectors must have the same size"), false)
  else if xs.isEmpty then
    (ScatterOutcome.threw ("Cannot create scatter plot with zero points"), false)
  else
    let cOpt := options.toCOptions
    let result := env.plotScatterPng path xs ys xs.length cOpt
    if result ≠ 0 then
      match env.plotLastErrorMessage with
      | some errorMsg => (ScatterOutcome.threw ("Plot failed: " ++ errorMsg), true)
      | none => (ScatterOutcome.threw ("Plot failed with unknown error"), true)
    else
      (ScatterOutcome.ok, true)

end plotffi

open plotffi

/-- Claim C1: with two empty input vectors, `scatterPng` throws a
`PlotError` whose message mentions zero points, and `plot_scatter_png` is
never invoked. -/
theorem scatterPng_empty_input_throws (env : FfiEnv) (path : String)
    (options : ScatterOptions) :
    scatterPng env path [] [] options =
      (ScatterOutcome.threw ("Cannot create scatter plot with zero points"), false) := by
  rfl

/-- Claim C2: whenever the input vectors have different lengths,
`scatterPng` throws the length-mismatch `PlotError` and `plot_scatter_png`
is never invoked. -/
theorem scatterPng_length_mismatch_throws (env : FfiEnv) (path : String)
    (xs ys : List ℚ) (options : ScatterOptions)
    (h : xs.length ≠ ys.length) :
    scatterPng env path xs ys options =
      (ScatterOutcome.threw ("X and Y coordinate vectors must have the same size"), false) := by
  simp [scatterPng, h]

/-- Witness for claim C2 at the concrete input `xs = [1]`, `ys = []`. -/
theorem scatterPng_length_mismatch_throws_witness :
    scatterPng ⟨fun _ _ _ _ _ => 0, none⟩ ("out.png") [(1 : ℚ)] [] {} =
      (ScatterOutcome.threw ("X and Y coordinate vectors must have the same size"), false) :=
  scatterPng_length_mismatch_throws ⟨fun _ _ _ _ _ => 0, none⟩ ("out.png")
    [(1 : ℚ)] [] {} (by decide)

/-- Claim C3: for non-empty, equal-length inputs `scatterPng` always invokes
`plot_scatter_png`; it returns normally if and only if the returned status
is `0`, and every nonzero status is surfaced as a thrown `PlotError`. -/
theorem scatterPng_status_contract (env : FfiEnv) (path : String)
    (xs ys : List ℚ) (options : ScatterOptions)
    (hlen : xs.length = ys.length) (hne : xs ≠ []) :
    (scatterPng env path xs ys options).2 = true ∧
    ((scatterPng env path xs ys options).1 = ScatterOutcome.ok ↔
      env.plotScatterPng path xs ys xs.length options.toCOptions = 0) ∧
    (env.plotScatterPng path xs ys xs.length options.toCOptions ≠ 0 →
      ∃ msg, (scatterPng env path xs ys options).1 = ScatterOutcome.threw msg) := by
  have hempty : ¬(xs.isEmpty = true) := by
    cases xs with
    | nil => exact absurd rfl hne
    | cons a l => simp
  have h1 : ¬xs.length ≠ ys.length := by simp [hlen]
  unfold scatterPng
  rw [if_neg h1, if_neg hempty]
  by_cases hstat : env.plotScatterPng path xs ys xs.length options.toCOptions = 0
  · simp [hstat]
  · cases hmsg : env.plotLastErrorMessage with
    | none => simp [hstat, hmsg]
    | some m => simp [hstat, hmsg]

/-- Witness for claim C3 at `xs = [1]`, `ys = [2]` with an environment whose
`plot_scatter_png` always returns status `0`. -/
theorem scatterPng_status_contract_witness :
    (scatterPng ⟨fun _ _ _ _ _ => 0, none⟩ ("out.png") [(1 : ℚ)] [(2 : ℚ)] {}).2 = true ∧
    ((scatterPng ⟨fun _ _ _ _ _ => 0, none⟩ ("out.png") [(1 : ℚ)] [(2 : ℚ)] {}).1 =
        ScatterOutcome.ok ↔
      (FfiEnv.mk (fun _ _ _ _ _ => 0) none).plotScatterPng ("out.png") [(1 : ℚ)] [(2 : ℚ)]
        ([(1 : ℚ)].length) (ScatterOptions.toCOptions {}) = 0) ∧
    ((FfiEnv.mk (fun _ _ _ _ _ => 0) none).plotScatterPng ("out.png") [(1 : ℚ)] [(2 : ℚ)]
        ([(1 : ℚ)].length) (ScatterOptions.toCOptions {}) ≠ 0 →
      ∃ msg, (scatterPng ⟨fun _ _ _ _ _ => 0, none⟩ ("out.png") [(1 : ℚ)] [(2 : ℚ)] {}).1 =
        ScatterOutcome.threw msg) :=
  scatterPng_status_contract ⟨fun _ _ _ _ _ => 0, none⟩ ("out.png")
    [(1 : ℚ)] [(2 : ℚ)] {} (by decide) (by decide)

/-- Claim C4: a default-constructed `ScatterOptions` has width 800, height
600, marker radius 5, auto-ranging enabled, and ranges 0..1 on both axes. -/
theorem scatterOptions_defaults :
    ({} : ScatterOptions).width = 800 ∧
    ({} : ScatterOptions).height = 600 ∧
    ({} : ScatterOptions).markerRadius = 5 ∧
    ({} : ScatterOptions).autoRange = true ∧
    ({} : ScatterOptions).xMin = 0 ∧
    ({} : ScatterOptions).xMax = 1 ∧
    ({} : ScatterOptions).yMin = 0 ∧
    ({} : ScatterOptions).yMax = 1 := by
  refine ⟨rfl, rfl, rfl, rfl, rfl, rfl, rfl, rfl⟩

/-- Claim C7: when `plot_scatter_png` fails with a nonzero status,
`scatterPng` throws `"Plot failed with unknown error"` if
`plot_last_error_message` returned a null pointer, and otherwise throws the
returned message prefixed with `"Plot failed: "`. -/
theorem scatterPng_error_message_translation (env : FfiEnv) (path : String)
    (xs ys : List ℚ) (options : ScatterOptions)
    (hlen : xs.length = ys.length) (hne : xs ≠ [])
    (hstat : env.plotScatterPng path xs ys xs.length options.toCOptions ≠ 0) :
    (env.plotLastErrorMessage = none →
      (scatterPng env path xs ys options).1 =
        ScatterOutcome.threw ("Plot failed with unknown error")) ∧
    (∀ m, env.plotLastErrorMessage = some m →
      (scatterPng env path xs ys options).1 =
        ScatterOutcome.threw ("Plot failed: " ++ m)) := by
  have hempty : ¬(xs.isEmpty = true) := by
    cases xs with
    | nil => exact absurd rfl hne
    | cons a l => simp
  have h1 : ¬xs.length ≠ ys.length := by simp [hlen]
  unfold scatterPng
  rw [if_neg h1, if_neg hempty]
  constructor
  · intro hmsg
    simp [hstat, hmsg]
  · intro m hmsg
    simp [hstat, hmsg]

/-- Witness for claim C7 at `xs = [1]`, `ys = [2]` with an environment that
returns status `1` and a null error message. -/
theorem scatterPng_error_message_translation_witness :
    ((FfiEnv.mk (fun _ _ _ _ _ => 1) none).plotLastErrorMessage = none →
      (scatterPng ⟨fun _ _ _ _ _ => 1, none⟩ ("out.png") [(1 : ℚ)] [(2 : ℚ)] {}).1 =
        ScatterOutcome.threw ("Plot failed with unknown error")) ∧
    (∀ m, (FfiEnv.mk (fun _ _ _ _ _ => 1) none).plotLastErrorMessage = some m →
      (scatterPng ⟨fun _ _ _ _ _ => 1, none⟩ ("out.png") [(1 : ℚ)] [(2 : ℚ)] {}).1 =
        ScatterOutcome.threw ("Plot failed: " ++ m)) :=
  scatterPng_error_message_translation ⟨fun _ _ _ _ _ => 1, none⟩ ("out.png")
    [(1 : ℚ)] [(2 : ℚ)] {} (by decide) (by decide) (by decide)

/-- Claim C8: each builder setter modifies exactly its named fields.
`setXRange` sets `xMin`, `xMax` and clears `autoRange`; `setYRange` sets
`yMin`, `yMax` and clears `autoRange`; `setSize`, `setMarkerRadius` and
`setAutoRange` modify only their named fields; everything else is left
unchanged. -/
theorem scatterOptions_setter_frame (s : ScatterOptions) (w h r : Nat)
    (b : Bool) (mn mx : ℚ) :
    (s.setXRange mn mx) =
      { width := s.width, height := s.height, markerRadius := s.markerRadius,
        autoRange := false, xMin := mn, xMax := mx, yMin := s.yMin, yMax := s.yMax } ∧
    (s.setYRange mn mx) =
      { width := s.width, height := s.height, markerRadius := s.markerRadius,
        autoRange := false, xMin := s.xMin, xMax := s.xMax, yMin := mn, yMax := mx } ∧
    (s.setSize w h) =
      { width := w, height := h, markerRadius := s.markerRadius,
        autoRange := s.autoRange, xMin := s.xMin, xMax := s.xMax,
        yMin := s.yMin, yMax := s.yMax } ∧
    (s.setMarkerRadius r) =
      { width := s.width, height := s.height, markerRadius := r,
        autoRange := s.autoRange, xMin := s.xMin, xMax := s.xMax,
        yMin := s.yMin, yMax := s.yMax } ∧
    (s.setAutoRange b) =
      { width := s.width, height := s.height, markerRadius := s.markerRadius,
        autoRange := b, xMin := s.xMin, xMax := s.xMax,
        yMin := s.yMin, yMax := s.yMax } := by
  refine ⟨rfl, rfl, rfl, rfl, rfl⟩

/-- Claim C9: `toCOptions` transfers every field unchanged and maps the
boolean `autoRange` to the integer `auto_range`, which is `1` exactly when
`autoRange` is `true` and `0` exactly when it is `false`. -/
theorem toCOptions_preserves_fields (s : ScatterOptions) :
    (s.toCOptions).width = s.width ∧
    (s.toCOptions).height = s.height ∧
    (s.toCOptions).marker_radius = s.markerRadius ∧
    (s.toCOptions).x_min = s.xMin ∧
    (s.toCOptions).x_max = s.xMax ∧
    (s.toCOptions).y_min = s.yMin ∧
    (s.toCOptions).y_max = s.yMax ∧
    ((s.toCOptions).auto_range = 1 ↔ s.autoRange = true) ∧
    ((s.toCOptions).auto_range = 0 ↔ s.autoRange = false) := by
  refine ⟨rfl, rfl, rfl, rfl, rfl, rfl, rfl, ?_, ?_⟩ <;>
    cases hb : s.autoRange <;> simp [ScatterOptions.toCOptions, hb]

/-- Claim C10: the setters enforce no invariant: `setSize` accepts a zero
width and height, and `setXRange`/`setYRange` accept `min ≥ max`, in every
case performing exactly the plain field update (validation is deferred to
`plot_scatter_png`). -/
theorem scatterOptions_setters_unvalidated (s : ScatterOptions)
    (mn mx : ℚ) (hdeg : mx ≤ mn) :
    ((s.setSize 0 0).width = 0 ∧ (s.setSize 0 0).height = 0) ∧
    ((s.setXRange mn mx).xMin = mn ∧ (s.setXRange mn mx).xMax = mx ∧
      (s.setXRange mn mx).autoRange = false) ∧
    ((s.setYRange mn mx).yMin = mn ∧ (s.setYRange mn mx).yMax = mx ∧
      (s.setYRange mn mx).autoRange = false) := by
  exact ⟨⟨rfl, rfl⟩, ⟨rfl, rfl, rfl⟩, ⟨rfl, rfl, rfl⟩⟩

/-- Witness for claim C10 at the default options with the degenerate range
arguments `min = 1`, `max = 0`. -/
theorem scatterOptions_setters_unvalidated_witness :
    ((ScatterOptions.setSize {} 0 0).width = 0 ∧
      (ScatterOptions.setSize {} 0 0).height = 0) ∧
    ((ScatterOptions.setXRange {} 1 0).xMin = 1 ∧
      (ScatterOptions.setXRange {} 1 0).xMax = 0 ∧
      (ScatterOptions.setXRange {} 1 0).autoRange = false) ∧
    ((ScatterOptions.setYRange {} 1 0).yMin = 1 ∧
      (ScatterOptions.setYRange {} 1 0).yMax = 0 ∧
      (ScatterOptions.setYRange {} 1 0).autoRange = false) :=
  scatterOptions_setters_unvalidated {} 1 0 (by norm_num)

namespace plotffi

/-- Modelled from the spec: the core renderer (the Range Resolver behind
`plot_scatter_png`) is not part of this repository.  A resolved data-space
rectangle, the effective `(x_min, x_max, y_min, y_max)` used to map
points. -/
structure ResolvedRange where
  xMin : ℚ
  xMax : ℚ
  yMin : ℚ
  yMax : ℚ
deriving DecidableEq

/-- Minimum of a nonempty list given as head and tail. -/
def listMin (x : ℚ) (xs : List ℚ) : ℚ :=
  xs.foldl min x

/-- Maximum of a nonempty list given as head and tail. -/
def listMax (x : ℚ) (xs : List ℚ) : ℚ :=
  xs.foldl max x

/-- Modelled from the spec: the degenerate-axis policy of the Range
Resolver.  When an axis has zero span the spec requires expanding it
symmetrically by a small nonzero margin; a fixed absolute epsilon of `1` is
used here. -/
def expandDegenerate (lo hi : ℚ) : ℚ × ℚ :=
  if lo = hi then (lo - 1, hi + 1) else (lo, hi)

/-- Modelled from the spec: the Range Resolver of the core renderer, which
is not part of this repository.  With `auto_range` nonzero it derives the
range from the data extremes, expanding a degenerate axis; with
`auto_range` zero it validates the explicit range from the options, failing
with `InvalidRange` when `min >= max` on either axis; an empty sample set
fails with `EmptyInput`. -/
def resolveRange (xs ys : List ℚ) (opt : PlotOptions) :
    Except String ResolvedRange :=
  match xs, ys with
  | x :: xt, y :: yt =>
    if opt.auto_range ≠ 0 then
      let xr := expandDegenerate (listMin x xt) (listMax x xt)
      let yr := expandDegenerate (listMin y yt) (listMax y yt)
      Except.ok ⟨xr.1, xr.2, yr.1, yr.2⟩
    else if opt.x_min ≥ opt.x_max ∨ opt.y_min ≥ opt.y_max then
      Except.error ("InvalidRange")
    else
      Except.ok ⟨opt.x_min, opt.x_max, opt.y_min, opt.y_max⟩
  | _, _ => Except.error ("EmptyInput")

theorem foldl_min_le (xs : List ℚ) : ∀ x : ℚ, xs.foldl min x ≤ x := by
  induction xs with
  | nil => intro x; exact le_refl x
  | cons a l ih =>
    intro x
    calc (a :: l).foldl min x = l.foldl min (min x a) := rfl
    _ ≤ min x a := ih (min x a)
    _ ≤ x := min_le_left x a

theorem le_foldl_max (xs : List ℚ) : ∀ x : ℚ, x ≤ xs.foldl max x := by
  induction xs with
  | nil => intro x; exact le_refl x
  | cons a l ih =>
    intro x
    calc x ≤ max x a := le_max_left x a
    _ ≤ l.foldl max (max x a) := ih (max x a)
    _ = (a :: l).foldl max x := rfl

theorem listMin_le_listMax (x : ℚ) (xs : List ℚ) :
    listMin x xs ≤ listMax x xs :=
  le_trans (foldl_min_le xs x) (le_foldl_max xs x)

theorem expandDegenerate_pos_span (lo hi : ℚ) (hle : lo ≤ hi) :
    (expandDegenerate lo hi).1 < (expandDegenerate lo hi).2 ∧
    (expandDegenerate lo hi).1 ≤ lo ∧ hi ≤ (expandDegenerate lo hi).2 := by
  unfold expandDegenerate
  by_cases heq : lo = hi
  · rw [if_pos heq]
    dsimp only
    exact ⟨by linarith, by linarith, by linarith⟩
  · rw [if_neg heq]
    exact ⟨lt_of_le_of_ne hle heq, le_refl lo, le_refl hi⟩

end plotffi

/-- Claim C5 as stated is false: for the degenerate input `xs = [5]`,
`ys = [1]` with auto-ranging, the Resolved Range does not equal the data
extremes `(5, 5, 1, 1)`; the degenerate axes are expanded to `(4, 6)` and
`(0, 2)`. -/
theorem resolveRange_not_always_data_extremes :
    resolveRange [(5 : ℚ)] [(1 : ℚ)] (ScatterOptions.toCOptions {}) =
      Except.ok ⟨4, 6, 0, 2⟩ ∧
    (⟨4, 6, 0, 2⟩ : ResolvedRange) ≠ ⟨5, 5, 1, 1⟩ := by
  constructor
  · simp only [resolveRange, ScatterOptions.toCOptions]
    norm_num [listMin, listMax, expandDegenerate]
  · intro h
    have : (4 : ℚ) = 5 := congrArg ResolvedRange.xMin h
    norm_num at this

/-- Claim C5, amended: for non-empty equal-length data with auto-ranging,
whenever the data has strictly positive span on both axes the Resolved
Range equals exactly the data extremes `(min xs, max xs, min ys, max ys)`;
a degenerate axis is instead expanded symmetrically to a strictly positive
span containing the data. -/
theorem resolveRange_auto_data_extremes (x y : ℚ) (xt yt : List ℚ)
    (opt : PlotOptions) (hauto : opt.auto_range ≠ 0)
    (hx : listMin x xt < listMax x xt) (hy : listMin y yt < listMax y yt) :
    resolveRange (x :: xt) (y :: yt) opt =
      Except.ok ⟨listMin x xt, listMax x xt, listMin y yt, listMax y yt⟩ := by
  simp only [resolveRange]
  rw [if_pos hauto]
  have hx' : expandDegenerate (listMin x xt) (listMax x xt) =
      (listMin x xt, listMax x xt) := by
    unfold expandDegenerate
    rw [if_neg (ne_of_lt hx)]
  have hy' : expandDegenerate (listMin y yt) (listMax y yt) =
      (listMin y yt, listMax y yt) := by
    unfold expandDegenerate
    rw [if_neg (ne_of_lt hy)]
  simp [hx', hy']

/-- Witness for the amended claim C5 at `xs = [1, 2]`, `ys = [3, 4]` with
the default (auto-ranging) options. -/
theorem resolveRange_auto_data_extremes_witness :
    resolveRange [(1 : ℚ), 2] [(3 : ℚ), 4] (ScatterOptions.toCOptions {}) =
      Except.ok ⟨listMin 1 [2], listMax 1 [2], listMin 3 [4], listMax 3 [4]⟩ :=
  resolveRange_auto_data_extremes 1 3 [2] [4] (ScatterOptions.toCOptions {})
    (by decide) (by norm_num [listMin, listMax]) (by norm_num [listMin, listMax])

/-- Claim C6: for every non-empty sample set with auto-ranging — in
particular when all `xs` (or all `ys`) are identical — the Range Resolver
does not fail and produces a range with strictly positive span on both
axes that still contains all the data, so no division by zero can occur
downstream. -/
theorem resolveRange_auto_never_degenerate (x y : ℚ) (xt yt : List ℚ)
    (opt : PlotOptions) (hauto : opt.auto_range ≠ 0) :
    ∃ r : ResolvedRange,
      resolveRange (x :: xt) (y :: yt) opt = Except.ok r ∧
      r.xMin < r.xMax ∧ r.yMin < r.yMax ∧
      r.xMin ≤ listMin x xt ∧ listMax x xt ≤ r.xMax ∧
      r.yMin ≤ listMin y yt ∧ listMax y yt ≤ r.yMax := by
  have hxspan := expandDegenerate_pos_span (listMin x xt) (listMax x xt)
    (listMin_le_listMax x xt)
  have hyspan := expandDegenerate_pos_span (listMin y yt) (listMax y yt)
    (listMin_le_listMax y yt)
  refine ⟨⟨(expandDegenerate (listMin x xt) (listMax x xt)).1,
    (expandDegenerate (listMin x xt) (listMax x xt)).2,
    (expandDegenerate (listMin y yt) (listMax y yt)).1,
    (expandDegenerate (listMin y yt) (listMax y yt)).2⟩, ?_, ?_, ?_, ?_, ?_, ?_, ?_⟩
  · simp only [resolveRange]
    rw [if_pos hauto]
  · exact hxspan.1
  · exact hyspan.1
  · exact hxspan.2.1
  · exact hxspan.2.2
  · exact hyspan.2.1
  · exact hyspan.2.2

/-- Witness for claim C6 at the all-identical input `xs = [5, 5, 5]`,
`ys = [1, 1, 1]` with the default (auto-ranging) options. -/
theorem resolveRange_auto_never_degenerate_witness :
    ∃ r : ResolvedRange,
      resolveRange [(5 : ℚ), 5, 5] [(1 : ℚ), 1, 1] (ScatterOptions.toCOptions {}) =
        Except.ok r ∧
      r.xMin < r.xMax ∧ r.yMin < r.yMax ∧
      r.xMin ≤ listMin 5 [5, 5] ∧ listMax 5 [5, 5] ≤ r.xMax ∧
      r.yMin ≤ listMin 1 [1, 1] ∧ listMax 1 [1, 1] ≤ r.yMax :=
  resolveRange_auto_never_degenerate 5 1 [5, 5] [1, 1]
    (ScatterOptions.toCOptions {}) (by decide)
